import Mathlib

/-
Verification of the Pascal plagiarism-detection engine
(src/backend/src/services/plagiarism/pascalPlagiarismDetector.ts).

The detector file itself is embedded faithfully below (section "Detector").
The tokenizer, fingerprint index, pair analyser and fragment builder live in
modules that are not part of the provided sources (only the detector imports
them), so they are modelled from the specification (sections 4.1 - 4.6 of
spec.md); every such definition carries a doc comment starting with
"Modelled from the spec:".

JavaScript numbers are modelled as rationals; Math.sqrt forces the reals in
exactly one place (the batch threshold).  Wall-clock fields (processingTime)
are outside the model and omitted from the result records.
-/

/-- Modelled from the spec: source region of a token (rows and columns are
1-based); the tokenizer module carrying this type is not among the provided
sources. -/
structure Region where
  startRow : Nat
  startCol : Nat
  endRow : Nat
  endCol : Nat
deriving Repr, DecidableEq, Inhabited

/-- Modelled from the spec: lexical errors of the missing tokenizer module
(unterminated string or comment, section 4.1 / section 7). -/
inductive LexError where
  | unterminatedString
  | unterminatedComment
deriving Repr, DecidableEq, Inhabited

/-- Modelled from the spec: a tokenized file is the ordered token sequence
plus the parallel position map (section 3). -/
structure TokenizedFile where
  path : String
  tokens : List String
  mapping : List Region
deriving Repr, DecidableEq, Inhabited

/-- Modelled from the spec: the Pascal keyword list of the normalisation
policy (section 4.1). -/
def pascalKeywords : List String :=
  ["begin", "end", "if", "then", "else", "while", "for", "do", "repeat",
   "until", "procedure", "function", "var", "const", "type", "record",
   "array", "of", "program", "and", "or", "not", "div", "mod", "to",
   "downto", "case", "with"]

def isLetterChar (c : Char) : Bool :=
  (97 ≤ c.toNat && c.toNat ≤ 122) || (65 ≤ c.toNat && c.toNat ≤ 90) || c = '_'

def isDigitChar (c : Char) : Bool :=
  48 ≤ c.toNat && c.toNat ≤ 57

def isIdentChar (c : Char) : Bool :=
  isLetterChar c || isDigitChar c

def toLowerChar (c : Char) : Char :=
  if 65 ≤ c.toNat && c.toNat ≤ 90 then Char.ofNat (c.toNat + 32) else c

def lowerStr (s : String) : String :=
  String.mk (s.toList.map toLowerChar)

/-- Modelled from the spec: greedily take an identifier/keyword lexeme. -/
def takeIdent : List Char → List Char × List Char
  | [] => ([], [])
  | c :: cs =>
    if isIdentChar c then
      let p := takeIdent cs
      (c :: p.1, p.2)
    else ([], c :: cs)

/-- Modelled from the spec: greedily take a run of digits (numeric literal). -/
def takeDigits : List Char → List Char × List Char
  | [] => ([], [])
  | c :: cs =>
    if isDigitChar c then
      let p := takeDigits cs
      (c :: p.1, p.2)
    else ([], c :: cs)

/-- Modelled from the spec: skip a brace-delimited Pascal comment; `none`
means the comment is unterminated (a LexError).  Returns the remaining
input and the row/column after the closing brace. -/
def skipBraceComment : List Char → Nat → Nat → Option (List Char × Nat × Nat)
  | [], _, _ => none
  | c :: cs, row, col =>
    if c = '\x7d' then some (cs, row, col + 1)
    else if c = '\n' then skipBraceComment cs (row + 1) 1
    else skipBraceComment cs row (col + 1)

/-- Modelled from the spec: skip a parenthesis-star Pascal comment; `none`
means the comment is unterminated (a LexError). -/
def skipParenComment : List Char → Nat → Nat → Option (List Char × Nat × Nat)
  | [], _, _ => none
  | '*' :: ')' :: cs, row, col => some (cs, row, col + 2)
  | c :: cs, row, col =>
    if c = '\n' then skipParenComment cs (row + 1) 1
    else skipParenComment cs row (col + 1)

/-- Modelled from the spec: scan the tail of a string literal after the
opening quote; strings do not span lines, so a newline or the end of input
before the closing quote is an unterminated string (a LexError). -/
def scanStringTail : List Char → Nat → Option (List Char × Nat)
  | [], _ => none
  | c :: cs, col =>
    if c = '\x27' then some (cs, col + 1)
    else if c = '\n' then none
    else scanStringTail cs (col + 1)

/-- Modelled from the spec: drop the rest of a line comment up to (not
including) the newline. -/
def dropToNewline : List Char → List Char
  | [] => []
  | c :: cs => if c = '\n' then c :: cs else dropToNewline cs

def singleCharSymbols : List Char :=
  [':', ';', '.', ',', '(', ')', '[', ']', '+', '-', '*', '/', '=', '<', '>']

/-- Modelled from the spec: the main lexer loop (normalisation policy of
section 4.1: keywords keep their lowercased lexeme, identifiers become
IDENT, numbers NUM, strings STR, operators and punctuation their literal
form; comments and whitespace are dropped).  The fuel argument is an upper
bound on the number of steps; every step consumes at least one character,
so an initial fuel of the input length suffices. -/
def lexLoop : Nat → List Char → Nat → Nat → List (String × Region) →
    Except LexError (List (String × Region))
  | 0, _, _, _, acc => Except.ok acc.reverse
  | _ + 1, [], _, _, acc => Except.ok acc.reverse
  | fuel + 1, c :: cs, row, col, acc =>
    if c = '\n' then lexLoop fuel cs (row + 1) 1 acc
    else if c = ' ' || c = '\t' || c = '\r' then lexLoop fuel cs row (col + 1) acc
    else if c = '\x7b' then
      match skipBraceComment cs row (col + 1) with
      | none => Except.error LexError.unterminatedComment
      | some (rest, r, cl) => lexLoop fuel rest r cl acc
    else if c = '(' && cs.head? = some '*' then
      match skipParenComment (cs.drop 1) row (col + 2) with
      | none => Except.error LexError.unterminatedComment
      | some (rest, r, cl) => lexLoop fuel rest r cl acc
    else if c = '/' && cs.head? = some '/' then
      lexLoop fuel (dropToNewline cs) row col acc
    else if c = '\x27' then
      match scanStringTail cs (col + 1) with
      | none => Except.error LexError.unterminatedString
      | some (rest, cl) =>
        lexLoop fuel rest row cl (("STR", ⟨row, col, row, cl - 1⟩) :: acc)
    else if isLetterChar c then
      let p := takeIdent (c :: cs)
      let w := lowerStr (String.mk p.1)
      let value := if pascalKeywords.contains w then w else "IDENT"
      lexLoop fuel p.2 row (col + p.1.length)
        ((value, ⟨row, col, row, col + p.1.length - 1⟩) :: acc)
    else if isDigitChar c then
      let p := takeDigits (c :: cs)
      lexLoop fuel p.2 row (col + p.1.length)
        (("NUM", ⟨row, col, row, col + p.1.length - 1⟩) :: acc)
    else if c = ':' && cs.head? = some '=' then
      lexLoop fuel (cs.drop 1) row (col + 2) ((":=", ⟨row, col, row, col + 1⟩) :: acc)
    else if c = '<' && cs.head? = some '=' then
      lexLoop fuel (cs.drop 1) row (col + 2) (("<=", ⟨row, col, row, col + 1⟩) :: acc)
    else if c = '>' && cs.head? = some '=' then
      lexLoop fuel (cs.drop 1) row (col + 2) ((">=", ⟨row, col, row, col + 1⟩) :: acc)
    else if c = '<' && cs.head? = some '>' then
      lexLoop fuel (cs.drop 1) row (col + 2) (("<>", ⟨row, col, row, col + 1⟩) :: acc)
    else if singleCharSymbols.contains c then
      lexLoop fuel cs row (col + 1) ((String.mk [c], ⟨row, col, row, col⟩) :: acc)
    else
      lexLoop fuel cs row (col + 1) acc

/-- Modelled from the spec: `tokenize(name, text) → TokenizedFile` (section
4.1); a malformed lexeme is reported as a LexError, in the source an
exception that propagates to the caller of the detector. -/
def tokenizeFile (path : String) (content : String) : Except LexError TokenizedFile := do
  let raw ← lexLoop (content.toList.length + 1) content.toList 1 1 []
  pure { path := path, tokens := raw.map Prod.fst, mapping := raw.map Prod.snd }

/-- Modelled from the spec: detector constructor defaults (section 6); the
deployed detector is constructed with these values. -/
def kgramSize : Nat := 8

/-- Modelled from the spec: winnowing window size default (section 6). -/
def windowSize : Nat := 15

/-- Modelled from the spec: syntactic weight default (section 6). -/
def syntacticWeight : ℚ := 1

/-- Modelled from the spec: FNV-style 64-bit offset basis suggested as the
hash seed in section 4.2. -/
def fnvOffset : Nat := 0xCBF29CE484222325

/-- Modelled from the spec: the fixed odd multiplier of section 4.2. -/
def fnvPrime : Nat := 0x100000001B3

/-- Modelled from the spec: one 64-bit hashing step (multiply, xor, wrap). -/
def hashStep (h b : Nat) : Nat :=
  ((h * fnvPrime) ^^^ b) % (2 ^ 64)

/-- Modelled from the spec: fold a token string into the running hash. -/
def hashString (h : Nat) (s : String) : Nat :=
  s.toList.foldl (fun a c => hashStep a c.toNat) h

/-- Modelled from the spec: a deterministic, platform-independent hash of a
k-gram (section 4.2 allows any stable hash); a separator step between
tokens keeps token boundaries significant. -/
def hashKGram (toks : List String) : Nat :=
  toks.foldl (fun a t => hashStep (hashString a t) 31) fnvOffset

/-- Modelled from the spec: the k-gram hasher (section 4.2): the sequence of
N - K + 1 hashes over token windows of size K, empty when N < K. -/
def kgramHashes (tokens : List String) : List Nat :=
  if tokens.length < kgramSize then []
  else (List.range (tokens.length - kgramSize + 1)).map
    (fun i => hashKGram ((tokens.drop i).take kgramSize))

/-- Modelled from the spec: the rightmost minimum of a (position, hash) list
(ties select the rightmost, section 4.3). -/
def rightmostMin : List (Nat × Nat) → Option (Nat × Nat)
  | [] => none
  | x :: xs => some (xs.foldl (fun best y => if y.2 ≤ best.2 then y else best) x)

/-- Modelled from the spec: drop repeated consecutive selections of the same
position (section 4.3: a minimum already selected from the previous window
is not emitted again). -/
def dedupByPos : List (Nat × Nat) → List (Nat × Nat)
  | [] => []
  | [x] => [x]
  | x :: y :: rest =>
    if x.1 = y.1 then dedupByPos (y :: rest) else x :: dedupByPos (y :: rest)

/-- Modelled from the spec: the Schleimer-Wilkerson-Aiken winnowing selector
(section 4.3) over the k-gram hash sequence; returns (hash, kgramPosition)
fingerprints in position order. -/
def winnow (hashes : List Nat) : List (Nat × Nat) :=
  if hashes.length = 0 then []
  else
    let indexed := hashes.enum
    let numWindows :=
      if hashes.length ≤ windowSize then 1 else hashes.length - windowSize + 1
    let picks := (List.range numWindows).filterMap
      (fun s => rightmostMin ((indexed.drop s).take windowSize))
    (dedupByPos picks).map (fun p => (p.2, p.1))

/-- Modelled from the spec: the selected fingerprints of a token stream
(sections 4.2 - 4.3 composed, as the fingerprint index runs them). -/
def selectedFingerprints (tokens : List String) : List (Nat × Nat) :=
  winnow (kgramHashes tokens)

/-- Modelled from the spec: a shared k-gram between two files (section 3). -/
structure SharedKGram where
  hash : Nat
  leftPos : Nat
  rightPos : Nat
deriving Repr, DecidableEq, Inhabited

/-- Modelled from the spec: shared-hash extraction (section 4.4): for each
hash in both files the cross product of positions, sorted primarily by left
position, secondarily by right position. -/
def sharedKGrams (fp1 fp2 : List (Nat × Nat)) : List SharedKGram :=
  let cross := fp1.flatMap
    (fun a => (fp2.filter (fun b => b.1 = a.1)).map (fun b => ⟨a.1, a.2, b.2⟩))
  cross.mergeSort (fun s t =>
    s.leftPos < t.leftPos || (s.leftPos = t.leftPos && s.rightPos ≤ t.rightPos))

/-- Modelled from the spec: the pairwise analysis record of section 4.5 (the
source's Pair object, whose module is not among the provided sources). -/
structure PairData where
  shared : List SharedKGram
  overlap : Nat
  longest : Nat
  leftCovered : Nat
  rightCovered : Nat
  leftTotal : Nat
  rightTotal : Nat
  similarity : ℚ
deriving Repr, DecidableEq, Inhabited

/-- Modelled from the spec: the longest run of consecutive positions in an
ascending list, used for the longest-fragment metric (section 4.5). -/
def longestRunAux : List Nat → Nat → Nat → Nat → Nat
  | [], best, cur, _ => max best cur
  | x :: xs, best, cur, prev =>
    if x = prev + 1 then longestRunAux xs best (cur + 1) x
    else longestRunAux xs (max best cur) 1 x

/-- Modelled from the spec: longest contiguous shared run on the left side,
measured in tokens as run length + K - 1 (section 4.5); 0 when nothing is
shared. -/
def longestTokens (shared : List SharedKGram) : Nat :=
  let ps := ((shared.map (fun s => s.leftPos)).eraseDups).mergeSort
    (fun a b => decide (a ≤ b))
  match ps with
  | [] => 0
  | x :: xs => longestRunAux xs 0 1 x + kgramSize - 1

/-- Modelled from the spec: `getPair(a, b)` of the fingerprint index
(sections 4.4 - 4.5): overlap, coverage, Dice similarity (0 when either
side has no selected fingerprints) and the longest shared run. -/
def getPair (t1 t2 : TokenizedFile) : PairData :=
  let fp1 := selectedFingerprints t1.tokens
  let fp2 := selectedFingerprints t2.tokens
  let shared := sharedKGrams fp1 fp2
  let leftTotal := fp1.length
  let rightTotal := fp2.length
  let similarity : ℚ :=
    if leftTotal = 0 ∨ rightTotal = 0 then 0
    else (2 * shared.length : ℚ) / ((leftTotal : ℚ) + (rightTotal : ℚ))
  { shared := shared
    overlap := shared.length
    longest := longestTokens shared
    leftCovered := ((shared.map (fun s => s.leftPos)).toFinset).card
    rightCovered := ((shared.map (fun s => s.rightPos)).toFinset).card
    leftTotal := leftTotal
    rightTotal := rightTotal
    similarity := similarity }

/-- Modelled from the spec: a k-gram index range; the source's Range carries
`from`, `to` (half-open, as the detector's uses of `.to - 1` and `.length`
require) and `length = to - from`.  Lean reserves `from` and `to`, hence
`fromPos` and `toPos`. -/
structure KRange where
  fromPos : Nat
  toPos : Nat
deriving Repr, DecidableEq, Inhabited

/-- Modelled from the spec: the Range length accessor used by the detector
as `fragment.leftkgrams.length`. -/
def KRange.length (r : KRange) : Nat := r.toPos - r.fromPos

/-- Modelled from the spec: one side of a paired occurrence, a token range
`start = kgramPos`, `stop = kgramPos + K - 1` (sections 3 and 4.6). -/
structure PairSide where
  start : Nat
  stop : Nat
deriving Repr, DecidableEq, Inhabited

/-- Modelled from the spec: a paired occurrence inside a fragment; the
detector reads `pairs[i].left.start` and `pairs[i].left.stop`. -/
structure PairedOcc where
  left : PairSide
  right : PairSide
deriving Repr, DecidableEq, Inhabited

/-- Modelled from the spec: a fragment (section 3): k-gram ranges on both
sides plus its list of shared k-gram pairs. -/
structure Fragment where
  leftkgrams : KRange
  rightkgrams : KRange
  pairs : List PairedOcc
deriving Repr, DecidableEq, Inhabited

/-- Modelled from the spec: the in-progress cluster state of the greedy
fragment builder (section 4.6). -/
structure BuildState where
  firstLeft : Nat
  lastLeft : Nat
  firstRight : Nat
  lastRight : Nat
  baseOffset : Int
  acc : List SharedKGram
deriving Repr, DecidableEq, Inhabited

/-- Modelled from the spec: seed a new cluster at a shared k-gram. -/
def initState (s : SharedKGram) : BuildState :=
  ⟨s.leftPos, s.leftPos, s.rightPos, s.rightPos,
   (s.rightPos : Int) - (s.leftPos : Int), [s]⟩

/-- Modelled from the spec: close a cluster into a Fragment; each shared
k-gram becomes a paired occurrence with token ranges pos .. pos + K - 1. -/
def closeFragment (st : BuildState) : Fragment :=
  { leftkgrams := ⟨st.firstLeft, st.lastLeft + 1⟩
    rightkgrams := ⟨st.firstRight, st.lastRight + 1⟩
    pairs := st.acc.reverse.map (fun s =>
      ⟨⟨s.leftPos, s.leftPos + kgramSize - 1⟩,
       ⟨s.rightPos, s.rightPos + kgramSize - 1⟩⟩) }

/-- Modelled from the spec: the greedy clustering loop (section 4.6) with
gap tolerance 1 on both sides and an offset drift band of plus or minus 1
around the cluster's first shared k-gram. -/
def buildLoop : List SharedKGram → BuildState → List Fragment
  | [], st => [closeFragment st]
  | s :: rest, st =>
    if (s.leftPos : Int) - (st.lastLeft : Int) ≤ 1 ∧
       (s.rightPos : Int) - (st.lastRight : Int) ≤ 1 ∧
       ((s.rightPos : Int) - (s.leftPos : Int) - st.baseOffset).natAbs ≤ 1 then
      buildLoop rest { st with
        lastLeft := max st.lastLeft s.leftPos
        lastRight := max st.lastRight s.rightPos
        acc := s :: st.acc }
    else closeFragment st :: buildLoop rest (initState s)

/-- Modelled from the spec: `pair.buildFragments(minOccurrences)` (section
4.6): greedy clustering of the sorted shared k-grams, discarding clusters
with fewer than minOccurrences shared k-grams. -/
def buildFragments (pair : PairData) (minOccurrences : Nat) : List Fragment :=
  match pair.shared with
  | [] => []
  | s :: rest =>
    (buildLoop rest (initState s)).filter
      (fun f => decide (minOccurrences ≤ f.pairs.length))

/-- Fragment classification (source: MappedFragment.fragmentType). -/
inductive FragmentType where
  | EXACT
  | SIMILAR
  | STRUCTURAL
deriving Repr, DecidableEq, Inhabited

/-- Four-level confidence label (source: PlagiarismResult.confidence). -/
inductive ConfidenceLabel where
  | LOW
  | MEDIUM
  | HIGH
  | VERY_HIGH
deriving Repr, DecidableEq, Inhabited

/-- Line range of a mapped fragment; the source field named `end` is called
`stop` here because `end` is reserved in Lean. -/
structure LineRangeInfo where
  start : Nat
  stop : Nat
  count : Nat
deriving Repr, DecidableEq, Inhabited

/-- Token range of a mapped fragment; the source field named `end` is called
`stop` here because `end` is reserved in Lean. -/
structure TokenRangeInfo where
  start : Nat
  stop : Nat
  tokens : Nat
deriving Repr, DecidableEq, Inhabited

/-- Source interface MappedFragment (pascalPlagiarismDetector.ts lines
11-33). -/
structure MappedFragment where
  fragmentId : Nat
  confidence : ℚ
  fragmentType : FragmentType
  file1Lines : LineRangeInfo
  file2Lines : LineRangeInfo
  file1TokenRange : TokenRangeInfo
  file2TokenRange : TokenRangeInfo
  sharedTokens : List String
  tokenPattern : String
  file1CodeSnippet : String
  file2CodeSnippet : String
  file1CodeWithLineNumbers : String
  file2CodeWithLineNumbers : String
  localSimilarity : ℚ
  sharedFingerprints : Nat
deriving Repr, DecidableEq, Inhabited

/-- Source interface PlagiarismResult (lines 35-61); processingTime is
wall-clock time and outside the model. -/
structure PlagiarismResult where
  syntacticSimilarity : ℚ
  overallSimilarity : ℚ
  sharedFragments : Nat
  longestFragment : Nat
  coverage1 : ℚ
  coverage2 : ℚ
  mappedFragments : List MappedFragment
  totalMappedFragments : Nat
  significantMappedFragments : Nat
  totalSharedLines : Nat
  totalSharedTokens : Nat
  isPlagiarism : Bool
  confidence : ConfidenceLabel
  file1 : String
  file2 : String
deriving Repr, DecidableEq, Inhabited

/-- Source interface FileInput (lines 71-79); metadata is unused by the
engine and omitted. -/
structure FileInput where
  name : String
  content : String
deriving Repr, DecidableEq, Inhabited

/-- Return record of performSyntacticAnalysis (lines 194-219). -/
structure SyntacticResult where
  similarity : ℚ
  sharedFingerprints : Nat
  longestFragment : Nat
  coverage1 : ℚ
  coverage2 : ℚ
  pair : PairData
deriving Repr, DecidableEq, Inhabited

/-- Return record of mapFragments (lines 224-266). -/
structure MappingResult where
  mappedFragments : List MappedFragment
  totalMappedFragments : Nat
  significantMappedFragments : Nat
  totalSharedLines : Nat
  totalSharedTokens : Nat
deriving Repr, DecidableEq, Inhabited

/-- Embeds PascalPlagiarismDetector.performSyntacticAnalysis (lines
194-219): pair metrics plus coverages divided by max(1, total). -/
def performSyntacticAnalysis (t1 t2 : TokenizedFile) : SyntacticResult :=
  let pair := getPair t1 t2
  { similarity := pair.similarity
    sharedFingerprints := pair.overlap
    longestFragment := pair.longest
    coverage1 := (pair.leftCovered : ℚ) / ((max 1 pair.leftTotal : Nat) : ℚ)
    coverage2 := (pair.rightCovered : ℚ) / ((max 1 pair.rightTotal : Nat) : ℚ)
    pair := pair }

/-- Embeds PascalPlagiarismDetector.getLineNumber (lines 351-356).  The
mapping entries are Option-valued to model possibly missing JavaScript
array slots; the source's `?.startRow || 1` maps a missing entry, a missing
startRow and a zero startRow all to 1. -/
def getLineNumber (tokenIndex : Int) (mapping : List (Option Region)) : Nat :=
  if tokenIndex < 0 ∨ (mapping.length : Int) ≤ tokenIndex then 1
  else
    match mapping.getD tokenIndex.toNat none with
    | none => 1
    | some r => if r.startRow = 0 then 1 else r.startRow

/-- Embeds PascalPlagiarismDetector.extractCodeSnippet (lines 358-362):
JavaScript `lines.slice(start, end)` of the clamped line range, joined with
newlines. -/
def extractCodeSnippet (lines : List String) (startLine endLine : Nat) : String :=
  let start := max 0 (startLine - 1)
  let stop := min lines.length endLine
  String.intercalate "\n" ((lines.drop start).take (stop - start))

/-- Embeds JavaScript `code.split('\\n')`: split on every newline
character; written as a structural recursion so that concrete snippets
evaluate inside proofs. -/
def splitLinesAux : List Char → List Char → List String
  | [], cur => [String.mk cur.reverse]
  | c :: cs, cur =>
    if c = '\n' then String.mk cur.reverse :: splitLinesAux cs []
    else splitLinesAux cs (c :: cur)

/-- Embeds JavaScript `code.split('\\n')` on a string. -/
def splitLines (s : String) : List String :=
  splitLinesAux s.toList []

/-- Embeds JavaScript `String.prototype.padStart(w)`: pad with spaces on
the left up to width w. -/
def padStartStr (s : String) (w : Nat) : String :=
  String.mk (List.replicate (w - s.length) ' ') ++ s

/-- The per-line renderer inside addLineNumbers (lines 366-369): line i of
the snippet is prefixed with the width-3 left-padded number startLine + i
and a colon-space. -/
def numberedLines (startLine : Nat) (lines : List String) : List String :=
  lines.enum.map (fun p => padStartStr (toString (startLine + p.1)) 3 ++ ": " ++ p.2)

/-- Embeds PascalPlagiarismDetector.addLineNumbers (lines 364-370). -/
def addLineNumbers (code : String) (startLine : Nat) : String :=
  String.intercalate "\n" (numberedLines startLine (splitLines code))

/-- Embeds PascalPlagiarismDetector.calculateFragmentConfidence (lines
372-388): min(0.4, T/50) + min(0.3, 0.1 P) + min(0.3, 0.3 coherence),
capped at 1, with coherence = P / max(1, |leftKGramRange|). -/
def calculateFragmentConfidence (fragment : Fragment) (tokenCount : Nat) : ℚ :=
  let c1 : ℚ := min (2/5) ((tokenCount : ℚ) / 50)
  let c2 : ℚ := min (3/10) ((fragment.pairs.length : ℚ) * (1/10))
  let kgramRange := fragment.leftkgrams.length
  let expectedPairs := max 1 kgramRange
  let coherence : ℚ := (fragment.pairs.length : ℚ) / ((expectedPairs : Nat) : ℚ)
  let c3 : ℚ := min (3/10) (coherence * (3/10))
  min 1 (c1 + c2 + c3)

/-- Embeds PascalPlagiarismDetector.determineFragmentType (lines 390-394). -/
def determineFragmentType (confidence : ℚ) : FragmentType :=
  if 4/5 ≤ confidence then FragmentType.EXACT
  else if 3/5 ≤ confidence then FragmentType.SIMILAR
  else FragmentType.STRUCTURAL

/-- Embeds PascalPlagiarismDetector.createTokenPattern (lines 396-406). -/
def createTokenPattern (tokens : List String) : String :=
  if tokens.length = 0 then ""
  else if 20 < tokens.length then
    String.intercalate " " (tokens.take 10) ++ " ... " ++
      String.intercalate " " (tokens.drop (tokens.length - 10))
  else String.intercalate " " tokens

/-- Embeds PascalPlagiarismDetector.calculateAdaptiveThreshold (lines
408-421). -/
def calculateAdaptiveThreshold (syntactic : ℚ) (fragmentCount : Nat) : ℚ :=
  if 4/5 < syntactic ∧ 5 < fragmentCount then 7/10
  else if 3/5 < syntactic ∧ 3 < fragmentCount then 1/2
  else if 2/5 < syntactic ∧ 1 < fragmentCount then 7/20
  else 3/10

/-- Embeds PascalPlagiarismDetector.determineConfidence (lines 423-450):
the additive score accumulated in source order, then the label cut-offs. -/
def determineConfidence (overallSimilarity : ℚ) (syntactic : SyntacticResult)
    (mapping : MappingResult) : ConfidenceLabel :=
  let s1 : Nat :=
    if 4/5 < overallSimilarity then 4
    else if 3/5 < overallSimilarity then 3
    else if 2/5 < overallSimilarity then 2
    else 1
  let s2 := s1 + (if 7/10 < syntactic.similarity then 2 else 0)
  let s3 := s2 + (if 10 < syntactic.longestFragment then 1 else 0)
  let s4 := s3 + (if 1/2 < syntactic.coverage1 ∨ 1/2 < syntactic.coverage2 then 1 else 0)
  let s5 := s4 + (if 5 < mapping.significantMappedFragments then 2 else 0)
  let score := s5 + (if 20 < mapping.totalSharedLines then 1 else 0)
  if 8 ≤ score then ConfidenceLabel.VERY_HIGH
  else if 6 ≤ score then ConfidenceLabel.HIGH
  else if 4 ≤ score then ConfidenceLabel.MEDIUM
  else ConfidenceLabel.LOW

/-- Embeds the `fragment.pairs[0]?.left.start || fallback` pattern of lines
281-284: JavaScript `||` falls back both when the optional chain is
undefined (no pairs) and when the value is 0 (falsy). -/
def firstOrFalsy (pairs : List PairedOcc) (side : PairedOcc → PairSide)
    (fallback : Nat) : Nat :=
  match pairs.head? with
  | none => fallback
  | some p => if (side p).start = 0 then fallback else (side p).start

/-- Embeds the `fragment.pairs[last]?.left.stop || fallback` pattern of
lines 281-284, with the same falsy-zero behaviour. -/
def lastOrFalsy (pairs : List PairedOcc) (side : PairedOcc → PairSide)
    (fallback : Nat) : Nat :=
  match pairs.getLast? with
  | none => fallback
  | some p => if (side p).stop = 0 then fallback else (side p).stop

/-- Embeds PascalPlagiarismDetector.createMappedFragment (lines 271-346). -/
def createMappedFragment (fragment : Fragment) (fragmentId : Nat)
    (tokenizedFile1 tokenizedFile2 : TokenizedFile)
    (file1Code file2Code : String) : MappedFragment :=
  let file1TokenStart := firstOrFalsy fragment.pairs (fun p => p.left) fragment.leftkgrams.fromPos
  let file1TokenEnd := lastOrFalsy fragment.pairs (fun p => p.left) (fragment.leftkgrams.toPos - 1)
  let file2TokenStart := firstOrFalsy fragment.pairs (fun p => p.right) fragment.rightkgrams.fromPos
  let file2TokenEnd := lastOrFalsy fragment.pairs (fun p => p.right) (fragment.rightkgrams.toPos - 1)
  let sharedTokens := (tokenizedFile1.tokens.drop file1TokenStart).take (file1TokenEnd + 1 - file1TokenStart)
  let file1LineStart := getLineNumber (file1TokenStart : Int) (tokenizedFile1.mapping.map some)
  let file1LineEnd := getLineNumber (file1TokenEnd : Int) (tokenizedFile1.mapping.map some)
  let file2LineStart := getLineNumber (file2TokenStart : Int) (tokenizedFile2.mapping.map some)
  let file2LineEnd := getLineNumber (file2TokenEnd : Int) (tokenizedFile2.mapping.map some)
  let file1Lines := splitLines file1Code
  let file2Lines := splitLines file2Code
  let file1Snippet := extractCodeSnippet file1Lines file1LineStart file1LineEnd
  let file2Snippet := extractCodeSnippet file2Lines file2LineStart file2LineEnd
  let file1WithNumbers := addLineNumbers file1Snippet file1LineStart
  let file2WithNumbers := addLineNumbers file2Snippet file2LineStart
  let confidence := calculateFragmentConfidence fragment sharedTokens.length
  let fragmentType := determineFragmentType confidence
  let localSimilarity : ℚ :=
    (fragment.pairs.length : ℚ) / max 1 ((sharedTokens.length : ℚ) / (kgramSize : ℚ))
  { fragmentId := fragmentId
    confidence := confidence
    fragmentType := fragmentType
    file1Lines := ⟨file1LineStart, file1LineEnd, file1LineEnd - file1LineStart + 1⟩
    file2Lines := ⟨file2LineStart, file2LineEnd, file2LineEnd - file2LineStart + 1⟩
    file1TokenRange := ⟨file1TokenStart, file1TokenEnd, file1TokenEnd - file1TokenStart + 1⟩
    file2TokenRange := ⟨file2TokenStart, file2TokenEnd, file2TokenEnd - file2TokenStart + 1⟩
    sharedTokens := sharedTokens
    tokenPattern := createTokenPattern sharedTokens
    file1CodeSnippet := file1Snippet
    file2CodeSnippet := file2Snippet
    file1CodeWithLineNumbers := file1WithNumbers
    file2CodeWithLineNumbers := file2WithNumbers
    localSimilarity := min 1 localSimilarity
    sharedFingerprints := fragment.pairs.length }

/-- Embeds PascalPlagiarismDetector.mapFragments (lines 224-266): map every
built fragment, keep the significant ones (confidence at least 0.3 and at
least kgramSize shared tokens), and total their lines and tokens. -/
def mapFragments (pair : PairData) (tokenizedFile1 tokenizedFile2 : TokenizedFile)
    (file1Code file2Code : String) : MappingResult :=
  let fragments := buildFragments pair 1
  let mappedFragments := fragments.enum.map
    (fun p => createMappedFragment p.2 (p.1 + 1) tokenizedFile1 tokenizedFile2 file1Code file2Code)
  let significantFragments := mappedFragments.filter
    (fun f => decide (3/10 ≤ f.confidence) && decide (kgramSize ≤ f.sharedTokens.length))
  let totalSharedLines := (significantFragments.map (fun f => f.file1Lines.count)).sum
  let totalSharedTokens := (significantFragments.map (fun f => f.sharedTokens.length)).sum
  { mappedFragments := significantFragments
    totalMappedFragments := mappedFragments.length
    significantMappedFragments := significantFragments.length
    totalSharedLines := totalSharedLines
    totalSharedTokens := totalSharedTokens }

/-- Embeds steps 2-4 of detectPlagiarism (lines 140-188), the pure part
after both files tokenized successfully. -/
def detectPlagiarismCore (file1 file2 : FileInput)
    (tokenizedFile1 tokenizedFile2 : TokenizedFile)
    (customThreshold : Option ℚ) : PlagiarismResult :=
  let syntacticResult := performSyntacticAnalysis tokenizedFile1 tokenizedFile2
  let mappingResult := mapFragments syntacticResult.pair tokenizedFile1 tokenizedFile2
    file1.content file2.content
  let overallSimilarity := syntacticResult.similarity * syntacticWeight
  let threshold := customThreshold.getD
    (calculateAdaptiveThreshold syntacticResult.similarity mappingResult.mappedFragments.length)
  let isPlagiarism := decide (threshold ≤ overallSimilarity)
  let confidence := determineConfidence overallSimilarity syntacticResult mappingResult
  { syntacticSimilarity := syntacticResult.similarity
    overallSimilarity := overallSimilarity
    sharedFragments := syntacticResult.sharedFingerprints
    longestFragment := syntacticResult.longestFragment
    coverage1 := syntacticResult.coverage1
    coverage2 := syntacticResult.coverage2
    mappedFragments := mappingResult.mappedFragments
    totalMappedFragments := mappingResult.totalMappedFragments
    significantMappedFragments := mappingResult.significantMappedFragments
    totalSharedLines := mappingResult.totalSharedLines
    totalSharedTokens := mappingResult.totalSharedTokens
    isPlagiarism := isPlagiarism
    confidence := confidence
    file1 := file1.name
    file2 := file2.name }

/-- Embeds PascalPlagiarismDetector.detectPlagiarism (lines 120-189): both
files are tokenized (a LexError propagates, there is no handler), then the
pure analysis runs. -/
def detectPlagiarism (file1 file2 : FileInput) (customThreshold : Option ℚ) :
    Except LexError PlagiarismResult := do
  let tokenizedFile1 ← tokenizeFile file1.name file1.content
  let tokenizedFile2 ← tokenizeFile file2.name file2.content
  pure (detectPlagiarismCore file1 file2 tokenizedFile1 tokenizedFile2 customThreshold)

/-- Source interface BatchResult (lines 63-69); processingTime is outside
the model; threshold is real-valued because the source computes it with
Math.sqrt. -/
structure BatchResult where
  results : List PlagiarismResult
  threshold : ℝ
  totalComparisons : Nat
  suspiciousPairs : Nat

noncomputable instance : Inhabited BatchResult :=
  ⟨⟨[], 0, 0, 0⟩⟩

/-- The i-lt-j double loop of detectBatchPlagiarism (lines 549-561): all
ordered pairs of distinct files, in loop order. -/
def orderedPairs {α : Type} : List α → List (α × α)
  | [] => []
  | x :: xs => (xs.map (fun y => (x, y))) ++ orderedPairs xs

/-- Embeds PascalPlagiarismDetector.calculateBatchThreshold (lines
581-593): 0.3 for an empty result list, otherwise mean + 1.5 standard
deviations of the (sorted) similarities, clamped to [0.25, 0.8]. -/
noncomputable def calculateBatchThreshold (results : List PlagiarismResult) : ℝ :=
  if results.length = 0 then 3/10
  else
    let similarities := (results.map (fun r => r.overallSimilarity)).mergeSort
      (fun a b => decide (b ≤ a))
    let mean := similarities.sum / (similarities.length : ℚ)
    let variance := ((similarities.map (fun s => (s - mean) ^ 2)).sum) / (similarities.length : ℚ)
    let stdDev : ℝ := Real.sqrt (variance : ℝ)
    min (max (1/4) ((mean : ℝ) + 3/2 * stdDev)) (4/5)

/-- Embeds PascalPlagiarismDetector.detectBatchPlagiarism (lines 532-579):
every pair is analysed with the caller's threshold (errors propagate: the
loop has no handler), suspicious pairs are counted from the per-pair
isPlagiarism flags, the batch threshold falls back to
calculateBatchThreshold, and the results are sorted by descending overall
similarity. -/
noncomputable def detectBatchPlagiarism (files : List FileInput)
    (customThreshold : Option ℚ) : Except LexError BatchResult := do
  let results ← (orderedPairs files).mapM
    (fun p => detectPlagiarism p.1 p.2 customThreshold)
  let threshold : ℝ :=
    match customThreshold with
    | some t => (t : ℝ)
    | none => calculateBatchThreshold results
  pure { results := results.mergeSort
           (fun a b => decide (b.overallSimilarity ≤ a.overallSimilarity))
         threshold := threshold
         totalComparisons := (orderedPairs files).length
         suspiciousPairs := results.countP (fun r => r.isPlagiarism) }

/-- The per-fragment confidence formula exactly as claim C1 states it:
min(1, 0.4 min(1, T/50) + 0.3 min(1, 0.1 P) + 0.3 min(1, (P/max(1,R)) 1)). -/
def specC1Confidence (T P R : Nat) : ℚ :=
  min 1 ((2/5) * min 1 ((T : ℚ) / 50) + (3/10) * min 1 ((1/10) * (P : ℚ)) +
    (3/10) * min 1 (((P : ℚ) / ((max 1 R : Nat) : ℚ)) * 1))

/-- The corrected per-fragment confidence formula, in the claim's shape: the
inner saturation points move from T/50 to T/20 and from 0.1 P to P/3. -/
def amendedC1Confidence (T P R : Nat) : ℚ :=
  min 1 ((2/5) * min 1 ((T : ℚ) / 20) + (3/10) * min 1 ((P : ℚ) / 3) +
    (3/10) * min 1 ((P : ℚ) / ((max 1 R : Nat) : ℚ)))

/-- A concrete fragment with 3 shared pairs over a k-gram range of length 3,
on which the source confidence (1) differs from claim C1's formula (59/100). -/
def fragC1 : Fragment :=
  { leftkgrams := ⟨0, 3⟩
    rightkgrams := ⟨0, 3⟩
    pairs := [⟨⟨0, 7⟩, ⟨0, 7⟩⟩, ⟨⟨1, 8⟩, ⟨1, 8⟩⟩, ⟨⟨2, 9⟩, ⟨2, 9⟩⟩] }

/-- Claim C1 (counterexample): at T = 25 shared tokens, P = 3 shared pairs
and k-gram range R = 3, the detector computes confidence 1 while the
claimed formula gives 59/100; the source saturates each summand with an
outer min (min(0.4, T/50)), not with the claimed inner one (0.4 min(1, T/50)). -/
theorem claim_C1_counterexample :
    calculateFragmentConfidence fragC1 25 ≠
      specC1Confidence 25 fragC1.pairs.length fragC1.leftkgrams.length := by
  have h1 : calculateFragmentConfidence fragC1 25 = 1 := by
    norm_num [calculateFragmentConfidence, fragC1, KRange.length, min_def]
  have h2 : specC1Confidence 25 fragC1.pairs.length fragC1.leftkgrams.length = 59/100 := by
    norm_num [specC1Confidence, fragC1, KRange.length, min_def]
  rw [h1, h2]
  norm_num

/-- Claim C1 (amended): for every fragment, the per-fragment confidence
equals min(1, 0.4 min(1, T/20) + 0.3 min(1, P/3) + 0.3 min(1, P/max(1,R)))
with T the shared-token count, P the shared-pair count and R the left
k-gram range length. -/
theorem claim_C1_theorem (fragment : Fragment) (tokenCount : Nat) :
    calculateFragmentConfidence fragment tokenCount =
      amendedC1Confidence tokenCount fragment.pairs.length fragment.leftkgrams.length := by
  unfold calculateFragmentConfidence amendedC1Confidence
  rw [mul_min_of_nonneg _ _ (by norm_num : (0:ℚ) ≤ 2/5),
      mul_min_of_nonneg _ _ (by norm_num : (0:ℚ) ≤ 3/10),
      mul_min_of_nonneg _ _ (by norm_num : (0:ℚ) ≤ 3/10)]
  ring_nf

/-- The confidence-label formula exactly as claim C3 states it, with the
syntactic-similarity bonus granted at greater-or-equal 0.7. -/
def specC3Label (overallSimilarity : ℚ) (syntactic : SyntacticResult)
    (mapping : MappingResult) : ConfidenceLabel :=
  let bucket : Nat :=
    if 4/5 < overallSimilarity then 4
    else if 3/5 < overallSimilarity then 3
    else if 2/5 < overallSimilarity then 2
    else 1
  let score := bucket
    + (if 7/10 ≤ syntactic.similarity then 2 else 0)
    + (if 10 < syntactic.longestFragment then 1 else 0)
    + (if 1/2 < syntactic.coverage1 ∨ 1/2 < syntactic.coverage2 then 1 else 0)
    + (if 5 < mapping.significantMappedFragments then 2 else 0)
    + (if 20 < mapping.totalSharedLines then 1 else 0)
  if 8 ≤ score then ConfidenceLabel.VERY_HIGH
  else if 6 ≤ score then ConfidenceLabel.HIGH
  else if 4 ≤ score then ConfidenceLabel.MEDIUM
  else ConfidenceLabel.LOW

/-- The corrected confidence-label formula: the syntactic-similarity bonus
requires strictly more than 0.7, as the source's comparison does. -/
def amendedC3Label (overallSimilarity : ℚ) (syntactic : SyntacticResult)
    (mapping : MappingResult) : ConfidenceLabel :=
  let bucket : Nat :=
    if 4/5 < overallSimilarity then 4
    else if 3/5 < overallSimilarity then 3
    else if 2/5 < overallSimilarity then 2
    else 1
  let score := bucket
    + (if 7/10 < syntactic.similarity then 2 else 0)
    + (if 10 < syntactic.longestFragment then 1 else 0)
    + (if 1/2 < syntactic.coverage1 ∨ 1/2 < syntactic.coverage2 then 1 else 0)
    + (if 5 < mapping.significantMappedFragments then 2 else 0)
    + (if 20 < mapping.totalSharedLines then 1 else 0)
  if 8 ≤ score then ConfidenceLabel.VERY_HIGH
  else if 6 ≤ score then ConfidenceLabel.HIGH
  else if 4 ≤ score then ConfidenceLabel.MEDIUM
  else ConfidenceLabel.LOW

/-- A pair record with no shared fingerprints, for concrete inputs. -/
def emptyPairData : PairData := ⟨[], 0, 0, 0, 0, 0, 0, 0⟩

/-- A syntactic summary with similarity exactly 0.7 and every other factor
below its bonus threshold. -/
def synCE : SyntacticResult :=
  { similarity := 7/10, sharedFingerprints := 0, longestFragment := 0,
    coverage1 := 0, coverage2 := 0, pair := emptyPairData }

/-- A mapping summary with no significant fragments. -/
def mapCE : MappingResult := ⟨[], 0, 0, 0, 0⟩

/-- Claim C3 (counterexample): at overall similarity 0.7 and syntactic
similarity exactly 0.7 the source scores 3 (label LOW) because its
comparison is strict, while the claimed greater-or-equal bonus would score
5 (label MEDIUM). -/
theorem claim_C3_counterexample :
    determineConfidence (7/10) synCE mapCE ≠ specC3Label (7/10) synCE mapCE := by
  have hL : determineConfidence (7/10) synCE mapCE = ConfidenceLabel.LOW := by
    norm_num [determineConfidence, synCE, mapCE, emptyPairData]
  have hR : specC3Label (7/10) synCE mapCE = ConfidenceLabel.MEDIUM := by
    norm_num [specC3Label, synCE, mapCE, emptyPairData]
  rw [hL, hR]
  simp

/-- Claim C3 (amended): the confidence label is the additive score of the
claim with the syntactic-similarity bonus granted only strictly above 0.7. -/
theorem claim_C3_theorem (overallSimilarity : ℚ) (syntactic : SyntacticResult)
    (mapping : MappingResult) :
    determineConfidence overallSimilarity syntactic mapping =
      amendedC3Label overallSimilarity syntactic mapping := by
  rfl

/-- Claim C6: the token-to-line lookup is total and degrades safely: a
negative index, an index at or past the end of the position map, and a
missing mapped entry all yield line 1. -/
theorem claim_C6_theorem (tokenIndex : Int) (mapping : List (Option Region))
    (h : tokenIndex < 0 ∨ (mapping.length : Int) ≤ tokenIndex ∨
      mapping.getD tokenIndex.toNat none = none) :
    getLineNumber tokenIndex mapping = 1 := by
  unfold getLineNumber
  rcases h with h | h | h
  · rw [if_pos (Or.inl h)]
  · rw [if_pos (Or.inr h)]
  · by_cases hc : tokenIndex < 0 ∨ ((mapping.length : Int) ≤ tokenIndex)
    · rw [if_pos hc]
    · rw [if_neg hc, h]

/-- Claim C6 (witness): the lookup at index -1 of an empty map is 1. -/
theorem claim_C6_witness :
    getLineNumber (-1) ([] : List (Option Region)) = 1 :=
  claim_C6_theorem (-1) [] (Or.inl (by decide))

/-- JavaScript-style padEnd: pad with spaces on the right up to width w,
the reading of claim C7's "right-padded". -/
def padEndStr (s : String) (w : Nat) : String :=
  s ++ String.mk (List.replicate (w - s.length) ' ')

/-- The snippet rendering exactly as claim C7 states it: each line prefixed
with its 3-digit right-padded line number and a colon-space. -/
def specC7AddLineNumbers (code : String) (startLine : Nat) : String :=
  String.intercalate "\n" ((splitLines code).enum.map
    (fun p => padEndStr (toString (startLine + p.1)) 3 ++ ": " ++ p.2))

/-- Claim C7 (counterexample): for the one-line snippet "foo" starting at
line 5 the source renders "  5: foo" (number left-padded by padStart),
not the right-padded "5  : foo" the claim describes. -/
theorem claim_C7_counterexample :
    addLineNumbers "foo" 5 ≠ specC7AddLineNumbers "foo" 5 := by
  decide

/-- Length is preserved by the per-line renderer. -/
theorem numberedLines_length (startLine : Nat) (lines : List String) :
    (numberedLines startLine lines).length = lines.length := by
  simp [numberedLines]

/-- Claim C7 (amended): line i of the snippet is prefixed with the line
number startLine + i left-padded with spaces to width 3 (right-aligned,
JavaScript padStart(3)) followed by a colon-space. -/
theorem claim_C7_theorem (lines : List String) (startLine i : Nat)
    (h : i < lines.length) :
    (numberedLines startLine lines).get ⟨i, by rw [numberedLines_length]; exact h⟩ =
      padStartStr (toString (startLine + i)) 3 ++ ": " ++ lines.get ⟨i, h⟩ := by
  simp [numberedLines, List.get_eq_getElem]

/-- Claim C7 (witness): the second line of the two-line snippet starting at
line 5 is rendered with number 6. -/
theorem claim_C7_witness :
    (numberedLines 5 ["foo", "bar"]).get ⟨1, by decide⟩ =
      padStartStr (toString (5 + 1)) 3 ++ ": " ++
        (["foo", "bar"] : List String).get ⟨1, by decide⟩ :=
  claim_C7_theorem ["foo", "bar"] 5 1 (by decide)

/-- Claim C9: when a fragment has shared pairs but the boundary token index
is 0, createMappedFragment falls back to the k-gram range bound because the
source's fallback uses the falsy-checking JavaScript or-operator: a first
left start of 0 yields leftkgrams.from, a last left stop of 0 yields
leftkgrams.to - 1, and the right side behaves the same way. -/
theorem claim_C9_theorem (fragment : Fragment) (fragmentId : Nat)
    (t1 t2 : TokenizedFile) (c1 c2 : String) (p q : PairedOcc)
    (hp : fragment.pairs.head? = some p) (hq : fragment.pairs.getLast? = some q) :
    (p.left.start = 0 →
      (createMappedFragment fragment fragmentId t1 t2 c1 c2).file1TokenRange.start =
        fragment.leftkgrams.fromPos) ∧
    (q.left.stop = 0 →
      (createMappedFragment fragment fragmentId t1 t2 c1 c2).file1TokenRange.stop =
        fragment.leftkgrams.toPos - 1) ∧
    (p.right.start = 0 →
      (createMappedFragment fragment fragmentId t1 t2 c1 c2).file2TokenRange.start =
        fragment.rightkgrams.fromPos) ∧
    (q.right.stop = 0 →
      (createMappedFragment fragment fragmentId t1 t2 c1 c2).file2TokenRange.stop =
        fragment.rightkgrams.toPos - 1) := by
  refine ⟨fun h => ?_, fun h => ?_, fun h => ?_, fun h => ?_⟩ <;>
    simp [createMappedFragment, firstOrFalsy, lastOrFalsy, hp, hq, h]

/-- A fragment whose only shared pair has token index 0 on every boundary. -/
def fragC9 : Fragment := ⟨⟨2, 5⟩, ⟨3, 6⟩, [⟨⟨0, 0⟩, ⟨0, 0⟩⟩]⟩

/-- An empty tokenized file for concrete instantiations. -/
def tokEmptyA : TokenizedFile := ⟨"a.pas", [], []⟩

/-- A second empty tokenized file for concrete instantiations. -/
def tokEmptyB : TokenizedFile := ⟨"b.pas", [], []⟩

/-- Claim C9 (witness): on a concrete fragment with ranges [2,5) and [3,6)
whose single pair carries only zeros, the mapped token ranges are the
k-gram fallbacks 2, 4, 3, 5. -/
theorem claim_C9_witness :
    (createMappedFragment fragC9 1 tokEmptyA tokEmptyB "" "").file1TokenRange.start = 2 ∧
    (createMappedFragment fragC9 1 tokEmptyA tokEmptyB "" "").file1TokenRange.stop = 4 ∧
    (createMappedFragment fragC9 1 tokEmptyA tokEmptyB "" "").file2TokenRange.start = 3 ∧
    (createMappedFragment fragC9 1 tokEmptyA tokEmptyB "" "").file2TokenRange.stop = 5 := by
  have h := claim_C9_theorem fragC9 1 tokEmptyA tokEmptyB "" ""
    ⟨⟨0, 0⟩, ⟨0, 0⟩⟩ ⟨⟨0, 0⟩, ⟨0, 0⟩⟩ rfl rfl
  exact ⟨h.1 rfl, h.2.1 rfl, h.2.2.1 rfl, h.2.2.2 rfl⟩

/-- The adaptive threshold table exactly as claim C2 states it. -/
def specAdaptiveThreshold (s : ℚ) (F : Nat) : ℚ :=
  if 4/5 < s ∧ 5 < F then 7/10
  else if 3/5 < s ∧ 3 < F then 1/2
  else if 2/5 < s ∧ 1 < F then 7/20
  else 3/10

/-- The source's adaptive threshold computes the claim's table. -/
theorem calculateAdaptiveThreshold_eq_spec (s : ℚ) (F : Nat) :
    calculateAdaptiveThreshold s F = specAdaptiveThreshold s F := rfl

/-- Any successful detection decides isPlagiarism by comparing the overall
similarity against the caller's threshold, defaulted to the adaptive one
computed from the reported syntactic similarity and significant-fragment
count. -/
theorem detect_ok_isPlagiarism (f1 f2 : FileInput) (ct : Option ℚ)
    (r : PlagiarismResult) (h : detectPlagiarism f1 f2 ct = Except.ok r) :
    r.isPlagiarism = decide (ct.getD
      (calculateAdaptiveThreshold r.syntacticSimilarity r.significantMappedFragments) ≤
        r.overallSimilarity) := by
  unfold detectPlagiarism at h
  cases h1 : tokenizeFile f1.name f1.content with
  | error e => rw [h1] at h; simp [Bind.bind, Except.bind] at h
  | ok tf1 =>
    cases h2 : tokenizeFile f2.name f2.content with
    | error e => rw [h1, h2] at h; simp [Bind.bind, Except.bind] at h
    | ok tf2 =>
      rw [h1, h2] at h
      simp only [Bind.bind, Except.bind, pure, Except.pure, Except.ok.injEq] at h
      subst h
      rfl

/-- Claim C2: without a caller-supplied threshold, the detection verdict is
overallSimilarity at least the adaptive threshold of the claim's table,
taken at the syntactic similarity and the surviving-fragment count. -/
theorem claim_C2_theorem (f1 f2 : FileInput) (r : PlagiarismResult)
    (h : detectPlagiarism f1 f2 none = Except.ok r) :
    r.isPlagiarism = decide (specAdaptiveThreshold r.syntacticSimilarity
      r.significantMappedFragments ≤ r.overallSimilarity) := by
  have hr := detect_ok_isPlagiarism f1 f2 none r h
  simpa [calculateAdaptiveThreshold_eq_spec] using hr

/-- A first concrete input file (empty content). -/
def fileA : FileInput := ⟨"a.pas", ""⟩

/-- A second concrete input file (empty content). -/
def fileB : FileInput := ⟨"b.pas", ""⟩

/-- The concrete detection result for the two empty files. -/
def resAB : PlagiarismResult :=
  match detectPlagiarism fileA fileB none with
  | Except.ok r => r
  | Except.error _ => default

/-- Claim C2 (witness): detection of the two empty files succeeds and its
verdict matches the adaptive-threshold comparison. -/
theorem claim_C2_witness :
    detectPlagiarism fileA fileB none = Except.ok resAB ∧
      resAB.isPlagiarism = decide (specAdaptiveThreshold resAB.syntacticSimilarity
        resAB.significantMappedFragments ≤ resAB.overallSimilarity) :=
  ⟨rfl, claim_C2_theorem fileA fileB resAB rfl⟩

/-- Claim C5: for a fixed pair of files, raising the caller-supplied
threshold never flips isPlagiarism from false to true: a positive verdict
at the larger threshold implies one at the smaller. -/
theorem claim_C5_theorem (f1 f2 : FileInput) (t1 t2 : ℚ)
    (r1 r2 : PlagiarismResult) (hle : t1 ≤ t2)
    (h1 : detectPlagiarism f1 f2 (some t1) = Except.ok r1)
    (h2 : detectPlagiarism f1 f2 (some t2) = Except.ok r2)
    (hp : r2.isPlagiarism = true) : r1.isPlagiarism = true := by
  unfold detectPlagiarism at h1 h2
  cases ht1 : tokenizeFile f1.name f1.content with
  | error e => rw [ht1] at h1; simp [Bind.bind, Except.bind] at h1
  | ok tf1 =>
    cases ht2 : tokenizeFile f2.name f2.content with
    | error e => rw [ht1, ht2] at h1; simp [Bind.bind, Except.bind] at h1
    | ok tf2 =>
      rw [ht1, ht2] at h1 h2
      simp only [Bind.bind, Except.bind, pure, Except.pure, Except.ok.injEq] at h1 h2
      subst h1
      subst h2
      simp only [detectPlagiarismCore, Option.getD_some, decide_eq_true_eq] at hp ⊢
      exact le_trans hle hp

/-- The concrete detection result for the two empty files at caller
threshold 0. -/
def resABzero : PlagiarismResult :=
  match detectPlagiarism fileA fileB (some 0) with
  | Except.ok r => r
  | Except.error _ => default

/-- The concrete detection result for the two empty files at caller
threshold -1. -/
def resABnegOne : PlagiarismResult :=
  match detectPlagiarism fileA fileB (some (-1)) with
  | Except.ok r => r
  | Except.error _ => default

/-- Claim C5 (witness): on the two empty files, a positive verdict at
threshold 0 carries down to threshold -1. -/
theorem claim_C5_witness :
    (-1 : ℚ) ≤ 0 ∧
    detectPlagiarism fileA fileB (some (-1)) = Except.ok resABnegOne ∧
    detectPlagiarism fileA fileB (some 0) = Except.ok resABzero ∧
    resABzero.isPlagiarism = true ∧
    resABnegOne.isPlagiarism = true := by
  have hz : resABzero.isPlagiarism = true := by
    show (detectPlagiarismCore fileA fileB tokEmptyA tokEmptyB (some 0)).isPlagiarism = true
    simp [detectPlagiarismCore, performSyntacticAnalysis, getPair, selectedFingerprints,
      kgramHashes, winnow, kgramSize, syntacticWeight, tokEmptyA, tokEmptyB]
  exact ⟨by norm_num, rfl, rfl, hz,
    claim_C5_theorem fileA fileB (-1) 0 resABnegOne resABzero (by norm_num) rfl rfl hz⟩

/-- An empty token stream selects no fingerprints. -/
theorem selectedFingerprints_nil : selectedFingerprints [] = [] := rfl

/-- No shared k-grams when the left side has no fingerprints. -/
theorem sharedKGrams_nil_left (fp2 : List (Nat × Nat)) :
    sharedKGrams [] fp2 = [] := by
  simp [sharedKGrams]

/-- Flat-mapping everything to the empty list yields the empty list. -/
theorem listFlatMapConstNil {α β : Type} (l : List α) :
    (l.flatMap fun _ => ([] : List β)) = [] := by
  induction l <;> simp_all

/-- No shared k-grams when the right side has no fingerprints. -/
theorem sharedKGrams_nil_right (fp1 : List (Nat × Nat)) :
    sharedKGrams fp1 [] = [] := by
  simp [sharedKGrams, listFlatMapConstNil]

/-- The pair similarity is 0 when the left file selects no fingerprints. -/
theorem getPair_similarity_left (t1 t2 : TokenizedFile)
    (h : selectedFingerprints t1.tokens = []) : (getPair t1 t2).similarity = 0 := by
  simp [getPair, h]

/-- The pair similarity is 0 when the right file selects no fingerprints. -/
theorem getPair_similarity_right (t1 t2 : TokenizedFile)
    (h : selectedFingerprints t2.tokens = []) : (getPair t1 t2).similarity = 0 := by
  simp [getPair, h]

/-- The shared list is empty when the left file selects no fingerprints. -/
theorem getPair_shared_left (t1 t2 : TokenizedFile)
    (h : selectedFingerprints t1.tokens = []) : (getPair t1 t2).shared = [] := by
  simp [getPair, h, sharedKGrams_nil_left]

/-- The shared list is empty when the right file selects no fingerprints. -/
theorem getPair_shared_right (t1 t2 : TokenizedFile)
    (h : selectedFingerprints t2.tokens = []) : (getPair t1 t2).shared = [] := by
  simp [getPair, h, sharedKGrams_nil_right]

/-- A pair without shared k-grams maps no fragments. -/
theorem mapFragments_of_shared_nil (pair : PairData) (t1 t2 : TokenizedFile)
    (c1 c2 : String) (h : pair.shared = []) :
    (mapFragments pair t1 t2 c1 c2).mappedFragments = [] := by
  simp [mapFragments, buildFragments, h]

/-- Claim C4 (amended, pair level): when both files tokenize and one of
them yields no tokens, the pair's result reports overall similarity 0 and
no mapped fragments; batch results are exactly these per-pair results, so
such pairs appear harmlessly in a batch. -/
theorem claim_C4_theorem (f1 f2 : FileInput) (tf1 tf2 : TokenizedFile)
    (r : PlagiarismResult)
    (h1 : tokenizeFile f1.name f1.content = Except.ok tf1)
    (h2 : tokenizeFile f2.name f2.content = Except.ok tf2)
    (he : tf1.tokens = [] ∨ tf2.tokens = [])
    (h : detectPlagiarism f1 f2 none = Except.ok r) :
    r.overallSimilarity = 0 ∧ r.mappedFragments = [] := by
  unfold detectPlagiarism at h
  rw [h1, h2] at h
  simp only [Bind.bind, Except.bind, pure, Except.pure, Except.ok.injEq] at h
  subst h
  have hfp : selectedFingerprints tf1.tokens = [] ∨ selectedFingerprints tf2.tokens = [] := by
    rcases he with he | he
    · exact Or.inl (by rw [he]; exact selectedFingerprints_nil)
    · exact Or.inr (by rw [he]; exact selectedFingerprints_nil)
  constructor
  · show (performSyntacticAnalysis tf1 tf2).similarity * syntacticWeight = 0
    rcases hfp with hfp | hfp
    · simp [performSyntacticAnalysis, getPair_similarity_left tf1 tf2 hfp]
    · simp [performSyntacticAnalysis, getPair_similarity_right tf1 tf2 hfp]
  · show (mapFragments (performSyntacticAnalysis tf1 tf2).pair tf1 tf2
      f1.content f2.content).mappedFragments = []
    rcases hfp with hfp | hfp
    · exact mapFragments_of_shared_nil _ tf1 tf2 _ _
        (by simpa [performSyntacticAnalysis] using getPair_shared_left tf1 tf2 hfp)
    · exact mapFragments_of_shared_nil _ tf1 tf2 _ _
        (by simpa [performSyntacticAnalysis] using getPair_shared_right tf1 tf2 hfp)

/-- A one-character string holding only the quote character. -/
def quoteStr : String := String.mk ['\x27']

/-- A file whose string literal is never closed: its tokenization is a
LexError. -/
def fileBad : FileInput := ⟨"bad.pas", "begin writeln(" ++ quoteStr ++ "oops); end."⟩

/-- Claim C4 (counterexample): a batch containing a file that fails to
tokenize does not return a BatchResult at all: the LexError propagates out
of detectBatchPlagiarism (the comparison loop has no handler), so the whole
batch fails rather than reporting the pair with similarity 0. -/
theorem claim_C4_counterexample :
    detectBatchPlagiarism [fileBad, fileB] none =
      Except.error LexError.unterminatedString := by
  rfl

/-- Claim C4 (witness): both empty files tokenize to empty token streams
and their pair reports similarity 0 with no mapped fragments. -/
theorem claim_C4_witness :
    (tokenizeFile fileA.name fileA.content = Except.ok tokEmptyA) ∧
    (tokEmptyA.tokens = [] ∨ tokEmptyB.tokens = []) ∧
    (detectPlagiarism fileA fileB none = Except.ok resAB) ∧
    resAB.overallSimilarity = 0 ∧ resAB.mappedFragments = [] := by
  have h := claim_C4_theorem fileA fileB tokEmptyA tokEmptyB resAB rfl rfl
    (Or.inl rfl) rfl
  exact ⟨rfl, Or.inl rfl, rfl, h.1, h.2⟩

/-- Arithmetic mean of a list of rationals, as the source computes it. -/
def meanQ (l : List ℚ) : ℚ := l.sum / (l.length : ℚ)

/-- Population variance of a list of rationals, as the source computes it. -/
def varianceQ (l : List ℚ) : ℚ :=
  ((l.map (fun x => (x - meanQ l) ^ 2)).sum) / (l.length : ℚ)

/-- The batch threshold exactly as claim C8 states it:
clamp(mean + 1.5 stddev, 0.25, 0.8) over the overall similarities. -/
noncomputable def specBatchThreshold (sims : List ℚ) : ℝ :=
  min (4/5) (max (1/4) (((meanQ sims : ℚ) : ℝ) + 3/2 * Real.sqrt ((varianceQ sims : ℚ) : ℝ)))

/-- The mean is invariant under permutation. -/
theorem meanQ_perm {l1 l2 : List ℚ} (h : l1.Perm l2) : meanQ l1 = meanQ l2 := by
  unfold meanQ
  rw [h.sum_eq, h.length_eq]

/-- The variance is invariant under permutation. -/
theorem varianceQ_perm {l1 l2 : List ℚ} (h : l1.Perm l2) : varianceQ l1 = varianceQ l2 := by
  unfold varianceQ
  rw [meanQ_perm h, (h.map (fun x => (x - meanQ l2) ^ 2)).sum_eq, h.length_eq]

/-- The claimed batch-threshold formula is invariant under permutation. -/
theorem specBatchThreshold_perm {l1 l2 : List ℚ} (h : l1.Perm l2) :
    specBatchThreshold l1 = specBatchThreshold l2 := by
  unfold specBatchThreshold
  rw [meanQ_perm h, varianceQ_perm h]

/-- The source's batch threshold computes the claim's clamp formula over
the (unsorted) similarity list: sorting does not change mean or variance. -/
theorem calculateBatchThreshold_eq_spec (results : List PlagiarismResult)
    (h : results ≠ []) :
    calculateBatchThreshold results =
      specBatchThreshold (results.map fun r => r.overallSimilarity) := by
  have hlen : ¬(results.length = 0) := by simpa [List.length_eq_zero] using h
  have hperm : ((results.map fun r => r.overallSimilarity).mergeSort
      (fun a b => decide (b ≤ a))).Perm (results.map fun r => r.overallSimilarity) :=
    List.mergeSort_perm _ _
  have h1 := meanQ_perm hperm
  have h2 := varianceQ_perm hperm
  unfold calculateBatchThreshold specBatchThreshold
  rw [if_neg hlen]
  rw [← h1, ← h2]
  rw [min_comm]
  rfl

/-- Claim C8: without a caller-supplied threshold, the threshold field of a
successful non-empty batch equals clamp(mean + 1.5 stddev, 0.25, 0.8) over
the overallSimilarity values of all computed pairs. -/
theorem claim_C8_theorem (files : List FileInput) (b : BatchResult)
    (h : detectBatchPlagiarism files none = Except.ok b)
    (hne : b.results ≠ []) :
    b.threshold = specBatchThreshold (b.results.map fun r => r.overallSimilarity) := by
  unfold detectBatchPlagiarism at h
  cases hm : (orderedPairs files).mapM (fun p => detectPlagiarism p.1 p.2 none) with
  | error e => rw [hm] at h; simp [Bind.bind, Except.bind] at h
  | ok rs =>
    rw [hm] at h
    simp only [Bind.bind, Except.bind, pure, Except.pure, Except.ok.injEq] at h
    subst h
    have hrs : rs ≠ [] := by
      intro hnil
      apply hne
      show rs.mergeSort _ = []
      rw [hnil, List.mergeSort_nil]
    show calculateBatchThreshold rs =
      specBatchThreshold ((rs.mergeSort
        (fun a b => decide (b.overallSimilarity ≤ a.overallSimilarity))).map
          fun r => r.overallSimilarity)
    rw [calculateBatchThreshold_eq_spec rs hrs]
    exact (specBatchThreshold_perm
      ((List.mergeSort_perm rs _).map fun r => r.overallSimilarity)).symm

/-- The concrete batch result for the two empty files. -/
noncomputable def exBatch : BatchResult :=
  match detectBatchPlagiarism [fileA, fileB] none with
  | Except.ok b => b
  | Except.error _ => default

/-- Claim C8 (witness): the batch over the two empty files succeeds with a
single result, and its threshold satisfies the clamp formula. -/
theorem claim_C8_witness :
    detectBatchPlagiarism [fileA, fileB] none = Except.ok exBatch ∧
    exBatch.results ≠ [] ∧
    exBatch.threshold = specBatchThreshold (exBatch.results.map fun r => r.overallSimilarity) := by
  have h1 : detectBatchPlagiarism [fileA, fileB] none = Except.ok exBatch := rfl
  have h2 : exBatch.results ≠ [] := by
    show List.mergeSort [resAB] _ ≠ []
    rw [List.mergeSort_singleton]
    exact List.cons_ne_nil _ _
  exact ⟨h1, h2, claim_C8_theorem [fileA, fileB] exBatch h1 h2⟩

/-- Members of a successful monadic map over Except each come from a
successful application on some input element. -/
theorem mapM_ok_mem {α β : Type} (f : α → Except LexError β) :
    ∀ (xs : List α) (ys : List β), xs.mapM f = Except.ok ys →
      ∀ y ∈ ys, ∃ x ∈ xs, f x = Except.ok y := by
  intro xs
  induction xs with
  | nil =>
    intro ys h y hy
    rw [List.mapM_nil] at h
    simp only [pure, Except.pure, Except.ok.injEq] at h
    subst h
    simp at hy
  | cons x xs ih =>
    intro ys h y hy
    rw [List.mapM_cons] at h
    cases hfx : f x with
    | error e => rw [hfx] at h; simp [Bind.bind, Except.bind] at h
    | ok b =>
      rw [hfx] at h
      cases hrest : xs.mapM f with
      | error e => rw [hrest] at h; simp [Bind.bind, Except.bind] at h
      | ok bs =>
        rw [hrest] at h
        simp only [Bind.bind, Except.bind, pure, Except.pure, Except.ok.injEq] at h
        subst h
        cases List.mem_cons.mp hy with
        | inl hyb => exact ⟨x, List.mem_cons_self x xs, hyb ▸ hfx⟩
        | inr hybs =>
          obtain ⟨x', hx', hfx'⟩ := ih bs hrest y hybs
          exact ⟨x', List.mem_cons_of_mem _ hx', hfx'⟩

/-- Claim C10: in a batch without a caller-supplied threshold, every
result's isPlagiarism is decided by that pair's own adaptive threshold, and
suspiciousPairs counts exactly the results flagged as plagiarism; the
batch-level threshold enters neither. -/
theorem claim_C10_theorem (files : List FileInput) (b : BatchResult)
    (h : detectBatchPlagiarism files none = Except.ok b) :
    (∀ r ∈ b.results, r.isPlagiarism =
      decide (calculateAdaptiveThreshold r.syntacticSimilarity
        r.significantMappedFragments ≤ r.overallSimilarity)) ∧
    b.suspiciousPairs = b.results.countP (fun r => r.isPlagiarism) := by
  unfold detectBatchPlagiarism at h
  cases hm : (orderedPairs files).mapM (fun p => detectPlagiarism p.1 p.2 none) with
  | error e => rw [hm] at h; simp [Bind.bind, Except.bind] at h
  | ok rs =>
    rw [hm] at h
    simp only [Bind.bind, Except.bind, pure, Except.pure, Except.ok.injEq] at h
    subst h
    constructor
    · intro r hr
      have hrs : r ∈ rs := ((List.mergeSort_perm rs _).mem_iff).mp hr
      obtain ⟨p, _, hdet⟩ := mapM_ok_mem _ _ _ hm r hrs
      have hp := detect_ok_isPlagiarism p.1 p.2 none r hdet
      simpa using hp
    · show rs.countP _ = (rs.mergeSort _).countP _
      exact (((List.mergeSort_perm rs
        (fun a b => decide (b.overallSimilarity ≤ a.overallSimilarity))).countP_eq
          (fun r => r.isPlagiarism))).symm

/-- Claim C10 (witness): on the two-file batch the single result's verdict
matches its own adaptive threshold and the suspicious-pair count matches
the flagged results. -/
theorem claim_C10_witness :
    detectBatchPlagiarism [fileA, fileB] none = Except.ok exBatch ∧
    resAB.isPlagiarism = decide (calculateAdaptiveThreshold resAB.syntacticSimilarity
      resAB.significantMappedFragments ≤ resAB.overallSimilarity) ∧
    exBatch.suspiciousPairs = exBatch.results.countP (fun r => r.isPlagiarism) := by
  have h := claim_C10_theorem [fileA, fileB] exBatch rfl
  refine ⟨rfl, ?_, h.2⟩
  apply h.1
  show resAB ∈ List.mergeSort [resAB] _
  rw [List.mergeSort_singleton]
  exact List.mem_singleton.mpr rfl
